import Mathlib

/-!
Shallow embedding of the eCommerceDsNodeExpress_TypeScriptPostgreSQL backend.

The database is modelled as explicit lists of rows; each Sequelize raw query
becomes list surgery on that state.  Services that can throw are modelled as
functions into Except String, with the error strings copied from the source.
JavaScript numbers that hold money are modelled as exact rationals; a stored
value that does not parse as a number is the constructor StoredNum.nonNum
(parseFloat on it yields NaN, and NaN-rescue expressions such as
parseFloat(x) || 0 yield 0).
-/

namespace ECommerce

/-- A stored numeric column value as JavaScript sees it: either a genuine
number or something that does not parse as one. -/
inductive StoredNum where
  | num (q : ℚ)
  | nonNum
deriving DecidableEq, Repr

/-- Coercion used by the services: typeof x === number ? x : parseFloat(x) || 0. -/
def StoredNum.asNumber : StoredNum → ℚ
  | .num q => q
  | .nonNum => 0

/-- The test parseFloat(x.toString()) > 0 (NaN compares false with everything). -/
def StoredNum.isPos : StoredNum → Bool
  | .num q => decide (0 < q)
  | .nonNum => false

/-- Row of the Users table. -/
structure UserRow where
  Email : String
  Password : String
  Role : String
  Salt : String
  CartId : Int
deriving DecidableEq, Repr

/-- Row of the Carts table. -/
structure CartRow where
  IdCart : Int
  UserEmail : String
  TotalPrice : StoredNum
  Enabled : Bool
deriving DecidableEq, Repr

/-- Row of the CartDetails table. -/
structure CartDetailRow where
  IdCartDetail : Int
  CartId : Int
  RecordId : Int
  Amount : Int
deriving DecidableEq, Repr

/-- Row of the Records table. -/
structure RecordRow where
  IdRecord : Int
  TitleRecord : String
  YearOfPublication : Int
  ImageRecord : String
  Price : ℚ
  Stock : Int
  Discontinued : Bool
  GroupId : Int
deriving DecidableEq, Repr

/-- Row of the Orders table (only the column the user service touches). -/
structure OrderRow where
  IdOrder : Int
  UserEmail : String
deriving DecidableEq, Repr

/-- The database state visible to the services under verification. -/
structure DB where
  users : List UserRow
  carts : List CartRow
  cartDetails : List CartDetailRow
  records : List RecordRow
  orders : List OrderRow
deriving DecidableEq, Repr

/-- email.trim().toLowerCase(), the normalisation applied by the cart service;
it also matches the SQL expression LOWER(TRIM(x)).  Spelled out on the
character list (drop leading and trailing whitespace, then lower-case each
character) so that it evaluates inside the kernel. -/
def normEmail (s : String) : String :=
  String.mk ((((s.data.dropWhile Char.isWhitespace).reverse.dropWhile
    Char.isWhitespace).reverse).map Char.toLower)

/-! ## recordService -/

/-- recordService.getById: SELECT * FROM Records WHERE IdRecord = :id,
returning the first row or null. -/
def getById (db : DB) (id : Int) : Option RecordRow :=
  db.records.find? (fun r => r.IdRecord == id)

/-- UPDATE Records SET Stock = :newStock WHERE IdRecord = :id. -/
def setRecordStock (db : DB) (id : Int) (s : Int) : DB :=
  { db with records :=
      db.records.map (fun r => if r.IdRecord == id then { r with Stock := s } else r) }

/-- recordService.updateStock: fetch the record, reject a decrease larger than
the available stock, otherwise store Stock + amount and return the new stock. -/
def updateStock (db : DB) (id : Int) (amount : Int) : Except String (DB × Int) :=
  match getById db id with
  | none => .error ("Record with ID " ++ toString id ++ " not found")
  | some r =>
    if amount < 0 ∧ r.Stock < |amount| then
      .error "The decrease cannot be greater than the available stock"
    else
      .ok (setRecordStock db id (r.Stock + amount), r.Stock + amount)

/-- recordService.remove: check existence with getById, then DELETE. -/
def removeRecord (db : DB) (id : Int) : DB × Bool :=
  match getById db id with
  | none => (db, false)
  | some _ =>
    ({ db with records := db.records.filter (fun r => r.IdRecord != id) }, true)

/-- One updateStock call of a longer sequence: a throwing call leaves the
database unchanged (the UPDATE is only issued after the checks pass). -/
def runStockOp (db : DB) (op : Int × Int) : DB :=
  match updateStock db op.1 op.2 with
  | .ok (db', _) => db'
  | .error _ => db

/-- A sequence of updateStock calls, each fed the state the previous left. -/
def runStockOps (db : DB) : List (Int × Int) → DB
  | [] => db
  | op :: rest => runStockOps (runStockOp db op) rest

/-! ## cartService -/

/-- cartService.getCartStatus.  The queryFails flag injects a database failure
of the single SELECT (the catch block maps any such failure to a fixed
message). -/
def getCartStatus (db : DB) (email : String) (queryFails : Bool) :
    Except String Bool :=
  if email = "" then .error "Email is required"
  else if queryFails then .error "Failed to get cart status"
  else
    match db.carts.find? (fun c => c.UserEmail == normEmail email) with
    | some c => .ok c.Enabled
    | none => .ok false

/-- cartService.getActiveCartByEmail: an exact-email lookup among enabled
carts, then a LOWER(TRIM(..)) fallback; a row whose IdCart is 0 is falsy in
the JavaScript truthiness tests and is treated as absent. -/
def getActiveCartCI (db : DB) (n : String) : Option CartRow :=
  match db.carts.find? (fun c => normEmail c.UserEmail == n && c.Enabled) with
  | some c => if c.IdCart != 0 then some c else none
  | none => none

def getActiveCartByEmail (db : DB) (email : String) :
    Except String (Option CartRow) :=
  if email = "" then .error "Email is required"
  else
    match db.carts.find? (fun c => c.UserEmail == normEmail email && c.Enabled) with
    | some c =>
      if c.IdCart != 0 then .ok (some c)
      else .ok (getActiveCartCI db (normEmail email))
    | none => .ok (getActiveCartCI db (normEmail email))

/-- cartService.getCartById (IdCart 0 again falsy). -/
def getCartById (db : DB) (id : Int) : Option CartRow :=
  match db.carts.find? (fun c => c.IdCart == id) with
  | some c => if c.IdCart != 0 then some c else none
  | none => none

/-- cartService.getCartByEmail: same two-step lookup but without the Enabled
filter and without truthiness tests on IdCart. -/
def getCartByEmail (db : DB) (email : String) : Option CartRow :=
  let n := normEmail email
  match db.carts.find? (fun c => c.UserEmail == n) with
  | some c => some c
  | none => db.carts.find? (fun c => normEmail c.UserEmail == n)

/-- Modelled from the spec: cartDetailService.getCartDetailsByCartId is
imported by the cart service but its source file is not in the repository
snapshot; per the spec it returns the cart-detail rows of the given cart,
i.e. the rows whose CartId equals the argument. -/
def getCartDetailsByCartId (db : DB) (cartId : Int) : List CartDetailRow :=
  db.cartDetails.filter (fun d => d.CartId == cartId)

/-- UPDATE Carts SET TotalPrice = :v WHERE IdCart = :cartId. -/
def setCartTotal (db : DB) (cartId : Int) (v : StoredNum) : DB :=
  { db with carts :=
      db.carts.map (fun c => if c.IdCart == cartId then { c with TotalPrice := v } else c) }

/-- Fresh id handed out by the Carts primary-key sequence. -/
def freshCartId (db : DB) : Int :=
  (db.carts.map (fun c => c.IdCart)).foldr max 0 + 1

/-- cartService.createCart.  The race argument models the interleaving the
catch block is written for: race = some other means another request inserted
the row other between the existence check and our INSERT, so the INSERT
raises a unique-constraint violation (code 23505) and the service re-fetches;
race = none is the sequential run, where the INSERT with
ON CONFLICT (UserEmail) DO UPDATE SET Enabled = true, TotalPrice = 0 either
appends a fresh row or re-enables and resets the conflicting one. -/
def createCart (db : DB) (userEmail : String) (race : Option CartRow) :
    Except String (DB × CartRow) :=
  match db.users.find? (fun u => u.Email == normEmail userEmail) with
  | none => .error ("User " ++ normEmail userEmail ++ " not found")
  | some _ =>
    match getActiveCartByEmail db (normEmail userEmail) with
    | .error e => .error e
    | .ok (some cart) =>
      if cart.TotalPrice.isPos then
        if (getCartDetailsByCartId db cart.IdCart).isEmpty then
          .ok (setCartTotal db cart.IdCart (.num 0), { cart with TotalPrice := .num 0 })
        else .ok (db, cart)
      else .ok (db, cart)
    | .ok none =>
      match race with
      | some other =>
        match getActiveCartByEmail { db with carts := db.carts ++ [other] }
            (normEmail userEmail) with
        | .error e => .error e
        | .ok (some c) => .ok ({ db with carts := db.carts ++ [other] }, c)
        | .ok none => .error "Failed to find cart after race condition"
      | none =>
        match db.carts.find? (fun c => c.UserEmail == normEmail userEmail) with
        | some c =>
          .ok ({ db with
            carts := db.carts.map (fun x =>
              if x.UserEmail == normEmail userEmail then
                { x with Enabled := true, TotalPrice := .num 0 }
              else x) },
            { c with Enabled := true, TotalPrice := .num 0 })
        | none =>
          .ok ({ db with carts := db.carts ++
              [{ IdCart := freshCartId db, UserEmail := normEmail userEmail,
                 TotalPrice := .num 0, Enabled := true }] },
            { IdCart := freshCartId db, UserEmail := normEmail userEmail,
              TotalPrice := .num 0, Enabled := true })

/-- Number.prototype.toFixed(2) on an exact rational: round to the nearest
hundredth, ties toward plus infinity. -/
def toFixed2 (q : ℚ) : ℚ :=
  (⌊q * 100 + 1 / 2⌋ : ℚ) / 100

/-- cartService.updateCartTotalPrice. -/
def updateCartTotalPrice (db : DB) (cartId : Int) (priceToAdd : StoredNum) :
    Except String DB :=
  match getCartById db cartId with
  | none => .error "Cart not found"
  | some cart =>
    .ok (setCartTotal db cartId
      (.num (toFixed2 (cart.TotalPrice.asNumber + priceToAdd.asNumber))))

/-- The per-detail loop of disableCart: one updateStock call per cart detail,
threading the state; a failure aborts the loop. -/
def restoreStockLoop (db : DB) : List CartDetailRow → Except String DB
  | [] => .ok db
  | d :: rest =>
    match updateStock db d.RecordId d.Amount with
    | .error e => .error e
    | .ok (db', _) => restoreStockLoop db' rest

/-- Body of disableCart once a cart has been found: return the stock of every
detail, then flip Enabled to false if it was true. -/
def disableCartGo (db : DB) (cart : CartRow) : Except String (DB × Int) :=
  match restoreStockLoop db (getCartDetailsByCartId db cart.IdCart) with
  | .error e => .error e
  | .ok db1 =>
    if cart.Enabled then
      .ok ({ db1 with
        carts := db1.carts.map (fun c =>
          if c.IdCart == cart.IdCart then { c with Enabled := false } else c) },
        cart.IdCart)
    else .ok (db1, cart.IdCart)

/-- cartService.disableCart: look the cart up regardless of status, fall back
to the active-cart lookup, throw when neither finds one. -/
def disableCart (db : DB) (email : String) : Except String (DB × Int) :=
  match getCartByEmail db email with
  | some cart => disableCartGo db cart
  | none =>
    match getActiveCartByEmail db email with
    | .error e => .error e
    | .ok (some cart) => disableCartGo db cart
    | .ok none => .error "No cart found for this user"

/-! ## userService -/

/-- userService.findUserByEmail: exact-email SELECT with LIMIT 1. -/
def findUserByEmail (db : DB) (email : String) : Option UserRow :=
  db.users.find? (fun u => u.Email == email)

/-- userService.deleteUser.  The stepFails flag injects a failure of one of
the statements inside the transaction; the catch block rolls the transaction
back (so the state is unchanged) and throws a fixed message. -/
def deleteUser (db : DB) (email : String) (stepFails : Bool) :
    Except String (DB × Bool) :=
  if email = "" then .error "Email is required"
  else
    match findUserByEmail db email with
    | none => .ok (db, false)
    | some _ =>
      if stepFails then .error "Failed to delete user"
      else
        .ok ({ db with
          orders := db.orders.filter (fun o => o.UserEmail != email),
          users := db.users.filter (fun u => u.Email != email) }, true)

/-! ## Dynamically assembled UPDATE statements (groupService.update and
recordService.update).  Only the presence of each field decides which
fragments are pushed; the values go into the bound replacements. -/

/-- The partial group data accepted by groupService.update. -/
structure GroupUpdateData where
  NameGroup : Option String
  ImageGroup : Option (Option String)
  MusicGenreId : Option Int
deriving DecidableEq, Repr

/-- The fields array groupService.update pushes fragment by fragment. -/
def groupUpdateFields (d : GroupUpdateData) : List String :=
  (if d.NameGroup.isSome then ["\"NameGroup\" = :name"] else []) ++
  (if d.ImageGroup.isSome then ["\"ImageGroup\" = :image"] else []) ++
  (if d.MusicGenreId.isSome then ["\"MusicGenreId\" = :musicGenreId"] else [])

/-- The SQL text groupService.update sends (none when it returns false early
because no field was supplied). -/
def groupUpdateQuery (d : GroupUpdateData) : Option String :=
  let fields := groupUpdateFields d
  if fields.isEmpty then none
  else some ("UPDATE \"Groups\" SET " ++ String.intercalate ", " fields ++
    " WHERE \"IdGroup\" = :id")

/-- Which fields a group update defines; the values are erased. -/
def groupUpdateMask (d : GroupUpdateData) : Bool × Bool × Bool :=
  (d.NameGroup.isSome, d.ImageGroup.isSome, d.MusicGenreId.isSome)

/-- The partial record data accepted by recordService.update. -/
structure RecordUpdateData where
  TitleRecord : Option String
  YearOfPublication : Option Int
  ImageRecord : Option String
  Price : Option ℚ
  Stock : Option Int
  Discontinued : Option Bool
  GroupId : Option Int
deriving DecidableEq, Repr

/-- The fields array recordService.update pushes fragment by fragment. -/
def recordUpdateFields (d : RecordUpdateData) : List String :=
  (if d.TitleRecord.isSome then ["\"TitleRecord\" = :title"] else []) ++
  (if d.YearOfPublication.isSome then ["\"YearOfPublication\" = :year"] else []) ++
  (if d.ImageRecord.isSome then ["\"ImageRecord\" = :image"] else []) ++
  (if d.Price.isSome then ["\"Price\" = :price"] else []) ++
  (if d.Stock.isSome then ["\"Stock\" = :stock"] else []) ++
  (if d.Discontinued.isSome then ["\"Discontinued\" = :discontinued"] else []) ++
  (if d.GroupId.isSome then ["\"GroupId\" = :groupId"] else [])

/-- The SQL text recordService.update sends. -/
def recordUpdateQuery (d : RecordUpdateData) : Option String :=
  let fields := recordUpdateFields d
  if fields.isEmpty then none
  else some ("UPDATE \"Records\" SET " ++ String.intercalate ", " fields ++
    " WHERE \"IdRecord\" = :id")

/-- Which fields a record update defines. -/
def recordUpdateMask (d : RecordUpdateData) :
    Bool × Bool × Bool × Bool × Bool × Bool × Bool :=
  (d.TitleRecord.isSome, d.YearOfPublication.isSome, d.ImageRecord.isSome,
   d.Price.isSome, d.Stock.isSome, d.Discontinued.isSome, d.GroupId.isSome)

/-- The fixed SQL text of the stock UPDATE in recordService.updateStock;
it never depends on the id or the amount. -/
def updateStockQuery (id amount : Int) : String :=
  let _ := id
  let _ := amount
  "UPDATE \"Records\" SET \"Stock\" = :newStock WHERE \"IdRecord\" = :id"

/-- The fixed SQL text of the UPDATE in cartService.updateCartTotalPrice. -/
def updateCartTotalPriceQuery (cartId : Int) (priceToAdd : StoredNum) : String :=
  let _ := cartId
  let _ := priceToAdd
  "UPDATE \"Carts\" SET \"TotalPrice\" = :newTotalPrice WHERE \"IdCart\" = :cartId"

/-! ## recordsController handlers.  Each handler is a function of the outcome
of the service call it awaits: an Except.error argument is the case in which
the service layer threw and the catch block answers. -/

/-- An HTTP response as far as the claims are concerned: the status code and
the success flag of the JSON body (none for the body-less 204). -/
structure ApiResp where
  status : Nat
  success : Option Bool
deriving DecidableEq, Repr

/-- recordsController.getRecords. -/
def getRecordsHandler (r : Except String (List RecordRow)) : ApiResp :=
  match r with
  | .ok _ => { status := 200, success := some true }
  | .error _ => { status := 500, success := some false }

/-- recordsController.getRecordById. -/
def getRecordByIdHandler (r : Except String (Option RecordRow)) : ApiResp :=
  match r with
  | .ok none => { status := 404, success := some false }
  | .ok (some _) => { status := 200, success := some true }
  | .error _ => { status := 500, success := some false }

/-- recordsController.deleteRecord. -/
def deleteRecordHandler (r : Except String Bool) : ApiResp :=
  match r with
  | .ok false => { status := 404, success := some false }
  | .ok true => { status := 204, success := none }
  | .error _ => { status := 500, success := some false }

/-- recordsController.updateStock. -/
def updateStockHandler (r : Except String Int) : ApiResp :=
  match r with
  | .ok _ => { status := 200, success := some true }
  | .error _ => { status := 400, success := some false }

/-- recordsController.createRecord, error path. -/
def createRecordHandler (r : Except String RecordRow) : ApiResp :=
  match r with
  | .ok _ => { status := 201, success := some true }
  | .error _ => { status := 500, success := some false }

/-- recordsController.updateRecord, error path. -/
def updateRecordHandler (r : Except String Bool) : ApiResp :=
  match r with
  | .ok _ => { status := 200, success := some true }
  | .error _ => { status := 500, success := some false }

/-! ## State well-formedness and call sequences -/

/-- The Carts-table invariants the schema enforces and the service relies on:
every stored email is already trimmed and lower-cased (carts are only written
with normalised emails), the UNIQUE constraint on UserEmail, and primary keys
that are JavaScript-truthy. -/
def cartsWF (db : DB) : Prop :=
  (∀ c ∈ db.carts, normEmail c.UserEmail = c.UserEmail) ∧
  db.carts.Pairwise (fun a b => a.UserEmail ≠ b.UserEmail) ∧
  (∀ c ∈ db.carts, c.IdCart ≠ 0)

instance (db : DB) : Decidable (cartsWF db) := by
  unfold cartsWF; infer_instance

theorem find_congr_mem {α : Type} {p q : α → Bool} :
    ∀ l : List α, (∀ x ∈ l, p x = q x) → l.find? p = l.find? q := by
  intro l
  induction l with
  | nil => intro _; rfl
  | cons a t ih =>
    intro h
    by_cases hq : q a = true
    · rw [List.find?_cons_of_pos _ ((h a (List.mem_cons_self a t)).trans hq),
        List.find?_cons_of_pos _ hq]
    · rw [List.find?_cons_of_neg, List.find?_cons_of_neg]
      · exact ih fun x hx => h x (List.mem_cons_of_mem a hx)
      · simpa using hq
      · rw [h a (List.mem_cons_self a t)]; simpa using hq

theorem find_map_pres {α : Type} {p : α → Bool} {f : α → α}
    (hf : ∀ x, p (f x) = p x) :
    ∀ l : List α, (l.map f).find? p = (l.find? p).map f := by
  intro l
  induction l with
  | nil => rfl
  | cons a t ih =>
    by_cases hp : p a = true
    · rw [List.map_cons, List.find?_cons_of_pos _ ((hf a).trans hp),
        List.find?_cons_of_pos _ hp]
      rfl
    · rw [List.map_cons, List.find?_cons_of_neg, List.find?_cons_of_neg, ih]
      · simpa using hp
      · rw [hf a]; simpa using hp

theorem pairwise_key_map {α β : Type} {key : α → β} {f : α → α}
    (hf : ∀ x, key (f x) = key x) {l : List α}
    (h : l.Pairwise (fun a b => key a ≠ key b)) :
    (l.map f).Pairwise (fun a b => key a ≠ key b) := by
  rw [List.pairwise_map]
  exact h.imp (by intro a b hab; rw [hf a, hf b]; exact hab)

/-- Under the schema invariants, getActiveCartByEmail is exactly the first
enabled cart stored under the normalised email. -/
theorem getActiveCart_wf (db : DB) (email : String) (hne : email ≠ "")
    (hnorm_all : ∀ c ∈ db.carts, normEmail c.UserEmail = c.UserEmail)
    (hid : ∀ c ∈ db.carts, c.IdCart ≠ 0) :
    getActiveCartByEmail db email =
      .ok (db.carts.find? (fun c => c.UserEmail == normEmail email && c.Enabled)) := by
  cases hf : db.carts.find? (fun c => c.UserEmail == normEmail email && c.Enabled) with
  | some c =>
    have hmem := List.mem_of_find?_eq_some hf
    have hz : (c.IdCart != 0) = true := bne_iff_ne.mpr (hid c hmem)
    simp [getActiveCartByEmail, hne, hf, hz]
  | none =>
    have hci : getActiveCartCI db (normEmail email) = none := by
      unfold getActiveCartCI
      have hcongr : db.carts.find?
            (fun c => normEmail c.UserEmail == normEmail email && c.Enabled) =
          db.carts.find? (fun c => c.UserEmail == normEmail email && c.Enabled) := by
        apply find_congr_mem
        intro x hx
        rw [hnorm_all x hx]
      rw [hcongr, hf]
    simp [getActiveCartByEmail, hne, hf, hci]

/-! ## Stock lemmas and claim C2 -/

theorem stocks_nonneg_step (db : DB) (op : Int × Int)
    (h : ∀ r ∈ db.records, 0 ≤ r.Stock) :
    ∀ r ∈ (runStockOp db op).records, 0 ≤ r.Stock := by
  unfold runStockOp
  cases hu : updateStock db op.1 op.2 with
  | error e => exact h
  | ok p =>
    cases hg : getById db op.1 with
    | none =>
      simp only [updateStock, hg] at hu
      exact absurd hu (by simp)
    | some r =>
      simp only [updateStock, hg] at hu
      by_cases hc : op.2 < 0 ∧ r.Stock < |op.2|
      · rw [if_pos hc] at hu; exact absurd hu (by simp)
      · rw [if_neg hc] at hu
        have hp : p = (setRecordStock db op.1 (r.Stock + op.2), r.Stock + op.2) := by
          injection hu with h1
          exact h1.symm
        subst hp
        intro x hx
        simp only [setRecordStock, List.mem_map] at hx
        obtain ⟨y, hy, rfl⟩ := hx
        have hy0 := h y hy
        have hr0 : 0 ≤ r.Stock := by
          have hmem : r ∈ db.records := List.mem_of_find?_eq_some (by
            simpa [getById] using hg)
          exact h r hmem
        by_cases hid : (y.IdRecord == op.1) = true
        · rcases le_or_lt 0 op.2 with hpos | hneg
          · simp only [hid, if_true]
            omega
          · have h2 : ¬ r.Stock < |op.2| := fun hlt => hc ⟨hneg, hlt⟩
            rw [abs_of_neg hneg] at h2
            simp only [hid, if_true]
            omega
        · simp only [hid, if_false]
          exact hy0

theorem stocks_nonneg_run (ops : List (Int × Int)) :
    ∀ db : DB, (∀ r ∈ db.records, 0 ≤ r.Stock) →
      ∀ r ∈ (runStockOps db ops).records, 0 ≤ r.Stock := by
  induction ops with
  | nil => intro db h; exact h
  | cons op rest ih =>
    intro db h
    unfold runStockOps
    exact ih _ (stocks_nonneg_step db op h)

/-- C2: updateStock on records throws exactly when the record does not exist
(with the message naming the id) or when the amount is a decrease larger than
the available stock; otherwise it stores Stock + amount and returns that sum,
so any sequence of updateStock calls keeps every non-negative stock
non-negative. -/
theorem claim_C2_updateStock :
    (∀ db id amount, getById db id = none →
      updateStock db id amount =
        .error ("Record with ID " ++ toString id ++ " not found")) ∧
    (∀ db id amount r, getById db id = some r →
      ((amount < 0 ∧ r.Stock < |amount|) →
        updateStock db id amount =
          .error "The decrease cannot be greater than the available stock") ∧
      (¬ (amount < 0 ∧ r.Stock < |amount|) →
        updateStock db id amount =
          .ok (setRecordStock db id (r.Stock + amount), r.Stock + amount) ∧
        getById (setRecordStock db id (r.Stock + amount)) id =
          some { r with Stock := r.Stock + amount })) ∧
    (∀ db id amount, (∃ e, updateStock db id amount = .error e) ↔
      (getById db id = none ∨
        ∃ r, getById db id = some r ∧ amount < 0 ∧ r.Stock < |amount|)) ∧
    (∀ db ops, (∀ r ∈ db.records, 0 ≤ r.Stock) →
      ∀ r ∈ (runStockOps db ops).records, 0 ≤ r.Stock) := by
  refine ⟨?_, ?_, ?_, fun db ops h => stocks_nonneg_run ops db h⟩
  · intro db id amount hg
    unfold updateStock
    rw [hg]
  · intro db id amount r hg
    constructor
    · intro hc
      simp only [updateStock, hg]
      rw [if_pos hc]
    · intro hc
      constructor
      · simp only [updateStock, hg]
        rw [if_neg hc]
      · have hfind : db.records.find? (fun x => x.IdRecord == id) = some r := by
          simpa [getById] using hg
        have hid : (r.IdRecord == id) = true := by
          have hs := List.find?_some hfind
          simpa using hs
        have hpres : ∀ x : RecordRow,
            (fun x : RecordRow => x.IdRecord == id)
              (if x.IdRecord == id then { x with Stock := r.Stock + amount } else x) =
            (fun x : RecordRow => x.IdRecord == id) x := by
          intro x
          by_cases hx : (x.IdRecord == id) = true
          · simp [hx]
          · simp [hx]
        unfold getById setRecordStock
        rw [find_map_pres hpres, hfind]
        simp only [Option.map]
        rw [if_pos hid]
  · intro db id amount
    constructor
    · rintro ⟨e, he⟩
      cases hg : getById db id with
      | none => exact Or.inl rfl
      | some r =>
        refine Or.inr ⟨r, rfl, ?_⟩
        by_contra hc
        simp only [updateStock, hg] at he
        rw [if_neg hc] at he
        exact absurd he (by simp)
    · rintro (hg | ⟨r, hg, hc⟩)
      · exact ⟨"Record with ID " ++ toString id ++ " not found",
          by simp only [updateStock, hg]⟩
      · exact ⟨"The decrease cannot be greater than the available stock",
          by simp only [updateStock, hg]; rw [if_pos hc]⟩

/-- Concrete record used by the claim C2 witness. -/
def recC2 : RecordRow :=
  { IdRecord := 1, TitleRecord := "Abbey Road", YearOfPublication := 1969,
    ImageRecord := "", Price := 10, Stock := 5, Discontinued := false, GroupId := 1 }

/-- Concrete database used by the claim C2 witness. -/
def dbC2 : DB :=
  { users := [], carts := [], cartDetails := [], records := [recC2], orders := [] }

/-- Witness for claim C2: a concrete increase of 3 on stock 5 succeeds and
stores 8. -/
theorem claim_C2_updateStock_witness :
    updateStock dbC2 1 3 =
      .ok (setRecordStock dbC2 1 (recC2.Stock + 3), recC2.Stock + 3) ∧
    getById (setRecordStock dbC2 1 (recC2.Stock + 3)) 1 =
      some { recC2 with Stock := recC2.Stock + 3 } :=
  (claim_C2_updateStock.2.1 dbC2 1 3 recC2 (by decide)).2 (by decide)

/-- C7: every records controller handler maps a service-layer throw to
success:false with status 500 (getRecords, getRecordById, createRecord,
updateRecord, deleteRecord) or 400 (updateStock), and getRecordById and
deleteRecord answer 404 with success:false exactly when no record with the
requested id exists. -/
theorem claim_C7_recordsController_errors :
    (∀ e : String,
      getRecordsHandler (.error e) = { status := 500, success := some false } ∧
      getRecordByIdHandler (.error e) = { status := 500, success := some false } ∧
      createRecordHandler (.error e) = { status := 500, success := some false } ∧
      updateRecordHandler (.error e) = { status := 500, success := some false } ∧
      deleteRecordHandler (.error e) = { status := 500, success := some false } ∧
      updateStockHandler (.error e) = { status := 400, success := some false }) ∧
    (∀ db id, getRecordByIdHandler (.ok (getById db id)) =
      { status := 404, success := some false } ↔ getById db id = none) ∧
    (∀ db id, deleteRecordHandler (.ok (removeRecord db id).2) =
      { status := 404, success := some false } ↔ getById db id = none) := by
  refine ⟨fun e => ⟨rfl, rfl, rfl, rfl, rfl, rfl⟩, ?_, ?_⟩
  · intro db id
    cases hg : getById db id with
    | none => simp [getRecordByIdHandler]
    | some r => simp [getRecordByIdHandler]
  · intro db id
    cases hg : getById db id with
    | none => simp [removeRecord, hg, deleteRecordHandler]
    | some r => simp [removeRecord, hg, deleteRecordHandler]

/-- C5: the SQL text of every modelled persistence operation depends only on
which fields the input defines, never on the field values: the dynamically
assembled UPDATEs of groupService.update and recordService.update produce
identical query strings for inputs with the same defined-field mask, and the
fixed-text statements are independent of all inputs. -/
theorem claim_C5_sql_text_noninterference :
    (∀ a b : GroupUpdateData, groupUpdateMask a = groupUpdateMask b →
      groupUpdateQuery a = groupUpdateQuery b) ∧
    (∀ a b : RecordUpdateData, recordUpdateMask a = recordUpdateMask b →
      recordUpdateQuery a = recordUpdateQuery b) ∧
    (∀ i1 a1 i2 a2 : Int, updateStockQuery i1 a1 = updateStockQuery i2 a2) ∧
    (∀ c1 c2 : Int, ∀ p1 p2 : StoredNum,
      updateCartTotalPriceQuery c1 p1 = updateCartTotalPriceQuery c2 p2) := by
  refine ⟨?_, ?_, fun _ _ _ _ => rfl, fun _ _ _ _ => rfl⟩
  · intro a b h
    have h1 : a.NameGroup.isSome = b.NameGroup.isSome := congrArg (fun t => t.1) h
    have h2 : a.ImageGroup.isSome = b.ImageGroup.isSome := congrArg (fun t => t.2.1) h
    have h3 : a.MusicGenreId.isSome = b.MusicGenreId.isSome := congrArg (fun t => t.2.2) h
    unfold groupUpdateQuery groupUpdateFields
    rw [h1, h2, h3]
  · intro a b h
    have h1 : a.TitleRecord.isSome = b.TitleRecord.isSome := congrArg (fun t => t.1) h
    have h2 : a.YearOfPublication.isSome = b.YearOfPublication.isSome :=
      congrArg (fun t => t.2.1) h
    have h3 : a.ImageRecord.isSome = b.ImageRecord.isSome := congrArg (fun t => t.2.2.1) h
    have h4 : a.Price.isSome = b.Price.isSome := congrArg (fun t => t.2.2.2.1) h
    have h5 : a.Stock.isSome = b.Stock.isSome := congrArg (fun t => t.2.2.2.2.1) h
    have h6 : a.Discontinued.isSome = b.Discontinued.isSome :=
      congrArg (fun t => t.2.2.2.2.2.1) h
    have h7 : a.GroupId.isSome = b.GroupId.isSome := congrArg (fun t => t.2.2.2.2.2.2) h
    unfold recordUpdateQuery recordUpdateFields
    rw [h1, h2, h3, h4, h5, h6, h7]

/-- Witness for claim C5: two group updates that set different names produce
the same SQL text. -/
theorem claim_C5_sql_text_noninterference_witness :
    groupUpdateQuery { NameGroup := some "Queen", ImageGroup := none, MusicGenreId := none } =
    groupUpdateQuery { NameGroup := some "Kiss", ImageGroup := none, MusicGenreId := none } :=
  claim_C5_sql_text_noninterference.1
    { NameGroup := some "Queen", ImageGroup := none, MusicGenreId := none }
    { NameGroup := some "Kiss", ImageGroup := none, MusicGenreId := none }
    (by decide)

/-- C10: getCartStatus answers Enabled := false for a missing cart instead of
throwing, reads the first cart stored under the trimmed lower-cased email
otherwise, and throws only on an empty email or a query failure, with the
messages of the source. -/
theorem claim_C10_getCartStatus :
    (∀ db : DB, ∀ queryFails : Bool,
      getCartStatus db "" queryFails = .error "Email is required") ∧
    (∀ db : DB, ∀ email, email ≠ "" →
      (db.carts.find? (fun c => c.UserEmail == normEmail email) = none →
        getCartStatus db email false = .ok false) ∧
      (∀ c, db.carts.find? (fun c => c.UserEmail == normEmail email) = some c →
        getCartStatus db email false = .ok c.Enabled)) ∧
    (∀ db : DB, ∀ email, email ≠ "" →
      getCartStatus db email true = .error "Failed to get cart status") ∧
    (∀ db email queryFails m, getCartStatus db email queryFails = .error m →
      (m = "Email is required" ∧ email = "") ∨
      (m = "Failed to get cart status" ∧ queryFails = true)) := by
  refine ⟨fun db q => rfl, ?_, ?_, ?_⟩
  · intro db email he
    constructor
    · intro hf
      simp only [getCartStatus, if_neg he, if_neg (Bool.false_ne_true), hf]
    · intro c hf
      simp only [getCartStatus, if_neg he, if_neg (Bool.false_ne_true), hf]
  · intro db email he
    simp [getCartStatus, he]
  · intro db email queryFails m h
    by_cases he : email = ""
    · subst he
      simp only [getCartStatus, if_pos rfl] at h
      exact Or.inl ⟨(Except.error.injEq _ _).mp h.symm, rfl⟩
    · cases hq : queryFails with
      | true =>
        subst hq
        simp only [getCartStatus, if_neg he, if_pos rfl] at h
        exact Or.inr ⟨(Except.error.injEq _ _).mp h.symm, rfl⟩
      | false =>
        subst hq
        simp only [getCartStatus, if_neg he, if_neg (Bool.false_ne_true)] at h
        cases hf : db.carts.find? (fun c => c.UserEmail == normEmail email) with
        | none => rw [hf] at h; exact absurd h (by simp)
        | some c => rw [hf] at h; exact absurd h (by simp)

/-- Empty database used by several witnesses. -/
def dbEmpty : DB :=
  { users := [], carts := [], cartDetails := [], records := [], orders := [] }

/-- Witness for claim C10: a missing cart yields Enabled := false, not an
error. -/
theorem claim_C10_getCartStatus_witness :
    getCartStatus dbEmpty "User@Mail.com" false = .ok false :=
  (claim_C10_getCartStatus.2.1 dbEmpty "User@Mail.com" (by decide)).1 (by decide)

/-- Inversion of a successful getCartById: the SELECT found the row and its
id is JavaScript-truthy. -/
theorem getCartById_inv {db : DB} {id : Int} {c : CartRow}
    (h : getCartById db id = some c) :
    db.carts.find? (fun x => x.IdCart == id) = some c ∧ (c.IdCart != 0) = true := by
  cases hf : db.carts.find? (fun x => x.IdCart == id) with
  | none =>
    simp only [getCartById, hf] at h
    exact absurd h (by simp)
  | some c' =>
    simp only [getCartById, hf] at h
    by_cases hz : (c'.IdCart != 0) = true
    · rw [if_pos hz] at h
      have hc : c' = c := by injection h
      exact ⟨congrArg some hc, by rw [← hc]; exact hz⟩
    · rw [if_neg hz] at h
      exact absurd h (by simp)

/-- C4: updateCartTotalPrice adds priceToAdd to the stored total (coercing
non-numeric stored totals and inputs to 0) and stores the sum rounded to two
decimal places; on a missing cart it throws Cart not found and changes
nothing. -/
theorem claim_C4_updateCartTotalPrice :
    (∀ db cartId p, getCartById db cartId = none →
      updateCartTotalPrice db cartId p = .error "Cart not found") ∧
    (∀ db cartId p cart, getCartById db cartId = some cart →
      updateCartTotalPrice db cartId p =
        .ok (setCartTotal db cartId
          (.num (toFixed2 (cart.TotalPrice.asNumber + p.asNumber)))) ∧
      getCartById
        (setCartTotal db cartId
          (.num (toFixed2 (cart.TotalPrice.asNumber + p.asNumber)))) cartId =
        some { cart with
          TotalPrice := .num (toFixed2 (cart.TotalPrice.asNumber + p.asNumber)) }) := by
  constructor
  · intro db cartId p hg
    simp only [updateCartTotalPrice, hg]
  · intro db cartId p cart hg
    obtain ⟨hfind, hz⟩ := getCartById_inv hg
    constructor
    · simp only [updateCartTotalPrice, hg]
    · have hid : (cart.IdCart == cartId) = true := by
        have hs := List.find?_some hfind
        simpa using hs
      have hpres : ∀ x : CartRow,
          (fun x : CartRow => x.IdCart == cartId)
            (if x.IdCart == cartId then
              { x with TotalPrice := .num (toFixed2 (cart.TotalPrice.asNumber + p.asNumber)) }
            else x) =
          (fun x : CartRow => x.IdCart == cartId) x := by
        intro x
        by_cases hx : (x.IdCart == cartId) = true
        · simp [hx]
        · simp [hx]
      unfold getCartById setCartTotal
      rw [find_map_pres hpres, hfind]
      simp only [Option.map]
      rw [if_pos hid, if_pos hz]

/-- Concrete cart used by the claim C4 witness. -/
def cartC4 : CartRow :=
  { IdCart := 7, UserEmail := "a@b.c", TotalPrice := .num 10, Enabled := true }

/-- Concrete database used by the claim C4 witness. -/
def dbC4 : DB :=
  { users := [], carts := [cartC4], cartDetails := [], records := [], orders := [] }

/-- Witness for claim C4: adding 2.505 to a stored total of 10 stores the
rounded 12.51. -/
theorem claim_C4_updateCartTotalPrice_witness :
    updateCartTotalPrice dbC4 7 (.num (2505 / 1000)) =
      .ok (setCartTotal dbC4 7
        (.num (toFixed2 (cartC4.TotalPrice.asNumber + (StoredNum.num (2505 / 1000)).asNumber)))) ∧
    getCartById
      (setCartTotal dbC4 7
        (.num (toFixed2 (cartC4.TotalPrice.asNumber + (StoredNum.num (2505 / 1000)).asNumber)))) 7 =
      some { cartC4 with
        TotalPrice := .num (toFixed2 (cartC4.TotalPrice.asNumber +
          (StoredNum.num (2505 / 1000)).asNumber)) } :=
  claim_C4_updateCartTotalPrice.2 dbC4 7 (.num (2505 / 1000)) cartC4 (by decide)

/-- C9 counterexample: for the empty email on an empty database the user does
not exist, yet deleteUser throws Email is required instead of returning
false. -/
theorem claim_C9_counterexample :
    findUserByEmail dbEmpty "" = none ∧
    deleteUser dbEmpty "" false = .error "Email is required" ∧
    deleteUser dbEmpty "" false ≠ .ok (dbEmpty, false) := by
  refine ⟨rfl, rfl, ?_⟩
  intro h
  exact absurd h (by simp [deleteUser])

/-- C9 amended: for the empty email deleteUser throws Email is required with
the state unchanged; for every non-empty email it returns false and changes
nothing when the user does not exist, deletes the user's orders and the user
row and returns true when the user exists, and when a step inside the
transaction fails it rolls back (state unchanged) and throws Failed to delete
user. -/
theorem claim_C9_deleteUser_amended :
    (∀ db : DB, ∀ f : Bool, deleteUser db "" f = .error "Email is required") ∧
    (∀ db email, ∀ f : Bool, email ≠ "" → findUserByEmail db email = none →
      deleteUser db email f = .ok (db, false)) ∧
    (∀ db email u, email ≠ "" → findUserByEmail db email = some u →
      deleteUser db email true = .error "Failed to delete user" ∧
      deleteUser db email false =
        .ok ({ db with
          orders := db.orders.filter (fun o => o.UserEmail != email),
          users := db.users.filter (fun x => x.Email != email) }, true)) := by
  refine ⟨fun db f => rfl, ?_, ?_⟩
  · intro db email f he hf
    simp only [deleteUser, if_neg he, hf]
  · intro db email u he hf
    constructor
    · simp [deleteUser, he, hf]
    · simp only [deleteUser, if_neg he, hf]
      rw [if_neg (Bool.false_ne_true)]

/-- Concrete user used by the claim C9 witness. -/
def userC9 : UserRow :=
  { Email := "a@b.c", Password := "h", Role := "User", Salt := "s", CartId := 1 }

/-- Concrete database used by the claim C9 witness. -/
def dbC9 : DB :=
  { users := [userC9], carts := [], cartDetails := [],
    records := [], orders := [⟨1, "a@b.c"⟩, ⟨2, "x@y.z"⟩] }

/-- Witness for claim C9 (amended): deleting an existing user removes the
user row and the user's orders. -/
theorem claim_C9_deleteUser_amended_witness :
    deleteUser dbC9 "a@b.c" true = .error "Failed to delete user" ∧
    deleteUser dbC9 "a@b.c" false =
      .ok ({ dbC9 with
        orders := dbC9.orders.filter (fun o => o.UserEmail != "a@b.c"),
        users := dbC9.users.filter (fun x => x.Email != "a@b.c") }, true) :=
  claim_C9_deleteUser_amended.2.2 dbC9 "a@b.c" userC9 (by decide) (by decide)

/-- Concrete user used by the claim C1 witness. -/
def userC1 : UserRow :=
  { Email := "a@b.c", Password := "h", Role := "User", Salt := "s", CartId := 0 }

theorem mem_unique_of_pairwise_key {α β : Type} {key : α → β} {x y : α} :
    ∀ l : List α, l.Pairwise (fun a b => key a ≠ key b) →
      x ∈ l → y ∈ l → key x = key y → x = y := by
  intro l
  induction l with
  | nil => intro _ hx; exact absurd hx (List.not_mem_nil x)
  | cons a t ih =>
    intro hp hx hy hk
    rcases List.mem_cons.mp hx with rfl | hxt
    · rcases List.mem_cons.mp hy with rfl | hyt
      · rfl
      · exact absurd hk ((List.pairwise_cons.mp hp).1 y hyt)
    · rcases List.mem_cons.mp hy with rfl | hyt
      · exact absurd hk.symm ((List.pairwise_cons.mp hp).1 x hxt)
      · exact ih (List.pairwise_cons.mp hp).2 hxt hyt hk

/-- setRecordStock keeps the presence of every record id. -/
theorem getById_isSome_set (db : DB) (id v i2 : Int) :
    (getById (setRecordStock db id v) i2).isSome = (getById db i2).isSome := by
  have hpres : ∀ x : RecordRow,
      (fun x : RecordRow => x.IdRecord == i2)
        (if x.IdRecord == id then { x with Stock := v } else x) =
      (fun x : RecordRow => x.IdRecord == i2) x := by
    intro x
    by_cases hx : (x.IdRecord == id) = true <;> simp [hx]
  unfold getById setRecordStock
  dsimp only
  rw [find_map_pres hpres]
  cases db.records.find? (fun x => x.IdRecord == i2) <;> rfl

/-- Total amount the details of a cart hold for one record id. -/
def amountFor (details : List CartDetailRow) (rid : Int) : Int :=
  ((details.filter (fun d => d.RecordId == rid)).map (fun d => d.Amount)).sum

/-- Stock a record ends up with after the disableCart loop returned the
amounts of the given details. -/
def addBack (details : List CartDetailRow) (r : RecordRow) : RecordRow :=
  { r with Stock := r.Stock + amountFor details r.IdRecord }

theorem amountFor_cons_pos {d : CartDetailRow} {rest : List CartDetailRow} {rid : Int}
    (h : (d.RecordId == rid) = true) :
    amountFor (d :: rest) rid = d.Amount + amountFor rest rid := by
  unfold amountFor
  simp [List.filter_cons, h]

theorem amountFor_cons_neg {d : CartDetailRow} {rest : List CartDetailRow} {rid : Int}
    (h : (d.RecordId == rid) = false) :
    amountFor (d :: rest) rid = amountFor rest rid := by
  unfold amountFor
  simp [List.filter_cons, h]

/-- The disableCart loop, under unique record ids, succeeds whenever every
detail names an existing record with a non-negative amount, and it adds each
detail's amount to the stock of its record, touching nothing else. -/
theorem restoreStockLoop_spec :
    ∀ (details : List CartDetailRow) (db : DB),
      db.records.Pairwise (fun a b => a.IdRecord ≠ b.IdRecord) →
      (∀ d ∈ details, (getById db d.RecordId).isSome ∧ 0 ≤ d.Amount) →
      restoreStockLoop db details = .ok { db with records := db.records.map (addBack details) } := by
  intro details
  induction details with
  | nil =>
    intro db _ _
    have h1 : ∀ x ∈ db.records, addBack [] x = x := by
      intro x _
      simp [addBack, amountFor]
    unfold restoreStockLoop
    rw [List.map_congr_left h1, List.map_id']
  | cons d rest ih =>
    intro db hpair hok
    obtain ⟨hsome, hnn⟩ := hok d (List.mem_cons_self d rest)
    obtain ⟨r, hr⟩ := Option.isSome_iff_exists.mp hsome
    have hfind : db.records.find? (fun x => x.IdRecord == d.RecordId) = some r := by
      simpa [getById] using hr
    have hrid : (r.IdRecord == d.RecordId) = true := by
      have hs := List.find?_some hfind
      simpa using hs
    have hrmem := List.mem_of_find?_eq_some hfind
    have hcond : ¬ (d.Amount < 0 ∧ r.Stock < |d.Amount|) :=
      fun hc => absurd hc.1 (not_lt.mpr hnn)
    have heq : updateStock db d.RecordId d.Amount =
        .ok (setRecordStock db d.RecordId (r.Stock + d.Amount), r.Stock + d.Amount) := by
      simp only [updateStock, hr]
      rw [if_neg hcond]
    have hrec1 : (setRecordStock db d.RecordId (r.Stock + d.Amount)).records =
        db.records.map (fun x =>
          if x.IdRecord == d.RecordId then { x with Stock := x.Stock + d.Amount } else x) := by
      unfold setRecordStock
      dsimp only
      apply List.map_congr_left
      intro x hx
      by_cases hxid : (x.IdRecord == d.RecordId) = true
      · have hxr : x = r :=
          mem_unique_of_pairwise_key db.records hpair hx hrmem
            (by rw [beq_iff_eq.mp hxid, beq_iff_eq.mp hrid])
        rw [if_pos hxid, if_pos hxid, hxr]
      · rw [if_neg hxid, if_neg hxid]
    have hpair1 : (setRecordStock db d.RecordId (r.Stock + d.Amount)).records.Pairwise
        (fun a b => a.IdRecord ≠ b.IdRecord) := by
      rw [hrec1]
      refine pairwise_key_map ?_ hpair
      intro x
      by_cases hxid : (x.IdRecord == d.RecordId) = true <;> simp [hxid]
    have hok1 : ∀ d' ∈ rest,
        (getById (setRecordStock db d.RecordId (r.Stock + d.Amount)) d'.RecordId).isSome ∧
        0 ≤ d'.Amount := by
      intro d' hd'
      obtain ⟨hs, hn⟩ := hok d' (List.mem_cons_of_mem d hd')
      exact ⟨by rw [getById_isSome_set]; exact hs, hn⟩
    have hIH := ih (setRecordStock db d.RecordId (r.Stock + d.Amount)) hpair1 hok1
    have hfinal : (setRecordStock db d.RecordId (r.Stock + d.Amount)).records.map (addBack rest) =
        db.records.map (addBack (d :: rest)) := by
      rw [hrec1, List.map_map]
      apply List.map_congr_left
      intro x hx
      by_cases hxid : (x.IdRecord == d.RecordId) = true
      · have hdx : (d.RecordId == x.IdRecord) = true := by
          rw [beq_iff_eq]
          exact (beq_iff_eq.mp hxid).symm
        simp only [Function.comp_apply, if_pos hxid, addBack]
        rw [amountFor_cons_pos hdx]
        simp only [RecordRow.mk.injEq, and_true, true_and]
        omega
      · have hdx : (d.RecordId == x.IdRecord) = false := by
          simp only [beq_eq_false_iff_ne]
          intro hh
          rw [beq_iff_eq] at hxid
          exact hxid (congrArg id hh).symm
        simp only [Function.comp_apply, if_neg hxid, addBack]
        rw [amountFor_cons_neg hdx]
    have hIH' : restoreStockLoop (setRecordStock db d.RecordId (r.Stock + d.Amount)) rest =
        .ok { db with records := db.records.map (addBack (d :: rest)) } := by
      rw [hIH]
      simp only [Except.ok.injEq, DB.mk.injEq]
      exact ⟨rfl, rfl, rfl, hfinal, rfl⟩
    simp only [restoreStockLoop, heq, hIH']

/-- C3: disableCart returns every cart detail's Amount to the stock of its
record (one updateStock per detail), flips Enabled to false only when it was
true, and returns the cart id; when no cart row matches the email (exactly or
case-insensitively) it throws No cart found for this user without touching
any stock. -/
theorem claim_C3_disableCart (db : DB) (email : String) :
    (∀ cart, getCartByEmail db email = some cart →
      db.records.Pairwise (fun a b => a.IdRecord ≠ b.IdRecord) →
      (∀ d ∈ getCartDetailsByCartId db cart.IdCart,
        (getById db d.RecordId).isSome ∧ 0 ≤ d.Amount) →
      disableCart db email = .ok
        ({ db with
            records := db.records.map (addBack (getCartDetailsByCartId db cart.IdCart)),
            carts := if cart.Enabled then
                db.carts.map (fun c =>
                  if c.IdCart == cart.IdCart then { c with Enabled := false } else c)
              else db.carts },
          cart.IdCart)) ∧
    (email ≠ "" →
      (∀ c ∈ db.carts, (c.UserEmail == normEmail email) = false ∧
        (normEmail c.UserEmail == normEmail email) = false) →
      disableCart db email = .error "No cart found for this user") := by
  constructor
  · intro cart hcart hpair hok
    have hloop := restoreStockLoop_spec (getCartDetailsByCartId db cart.IdCart) db hpair hok
    simp only [disableCart, hcart, disableCartGo, hloop]
    by_cases hen : cart.Enabled = true
    · rw [if_pos hen, if_pos hen]
    · rw [if_neg hen, if_neg hen]
  · intro hne hnc
    have hbemail : getCartByEmail db email = none := by
      have h1 : db.carts.find? (fun c => c.UserEmail == normEmail email) = none := by
        rw [List.find?_eq_none]
        intro a ha
        simp [(hnc a ha).1]
      have h2 : db.carts.find? (fun c => normEmail c.UserEmail == normEmail email) = none := by
        rw [List.find?_eq_none]
        intro a ha
        simp [(hnc a ha).2]
      simp only [getCartByEmail, h1, h2]
    have hact : getActiveCartByEmail db email = .ok none := by
      have h1 : db.carts.find? (fun c => c.UserEmail == normEmail email && c.Enabled) =
          none := by
        rw [List.find?_eq_none]
        intro a ha
        simp [(hnc a ha).1]
      have h2 : getActiveCartCI db (normEmail email) = none := by
        have h3 : db.carts.find?
            (fun c => normEmail c.UserEmail == normEmail email && c.Enabled) = none := by
          rw [List.find?_eq_none]
          intro a ha
          simp [(hnc a ha).2]
        simp only [getActiveCartCI, h3]
      simp only [getActiveCartByEmail, if_neg hne, h1, h2]
    simp only [disableCart, hbemail, hact]

/-- Concrete cart, detail and record used by the claim C3 witness. -/
def cartC3 : CartRow :=
  { IdCart := 5, UserEmail := "a@b.c", TotalPrice := .num 10, Enabled := true }

def recC3 : RecordRow :=
  { IdRecord := 2, TitleRecord := "Animals", YearOfPublication := 1977,
    ImageRecord := "", Price := 20, Stock := 1, Discontinued := false, GroupId := 1 }

def detC3 : CartDetailRow :=
  { IdCartDetail := 1, CartId := 5, RecordId := 2, Amount := 3 }

def dbC3 : DB :=
  { users := [], carts := [cartC3], cartDetails := [detC3],
    records := [recC3], orders := [] }

/-- Witness for claim C3: disabling the cart returns 3 units to the record's
stock and flips the Enabled flag. -/
theorem claim_C3_disableCart_witness :
    disableCart dbC3 "a@b.c" = .ok
      ({ dbC3 with
          records := dbC3.records.map (addBack (getCartDetailsByCartId dbC3 cartC3.IdCart)),
          carts := if cartC3.Enabled then
              dbC3.carts.map (fun c =>
                if c.IdCart == cartC3.IdCart then { c with Enabled := false } else c)
            else dbC3.carts },
        cartC3.IdCart) :=
  (claim_C3_disableCart dbC3 "a@b.c").1 cartC3 (by decide) (by decide) (by decide)

/-! ## claim C6: createUser -/

/-- C8 (amended): createCart re-enables a user's only (disabled) cart and
resets its TotalPrice to 0 through the ON CONFLICT clause; it also resets a
positive stored total to 0 when the active cart has no details; and a cart
returned by a sequential createCart call that has no items carries
TotalPrice 0 provided every stored total is a non-negative number — the
claim_C8 counterexample shows the reset is skipped for a negative stored
total, reachable via updateCartTotalPrice with a negative priceToAdd. -/
theorem claim_C8_createCart_total_reset (db : DB) (e : String)
    (hne : e ≠ "") (hnorm : normEmail e = e)
    (hu : (db.users.find? (fun u => u.Email == e)).isSome)
    (hwf : cartsWF db) :
    (∀ c0, db.carts.find? (fun c => c.UserEmail == e) = some c0 → c0.Enabled = false →
      createCart db e none = .ok
        ({ db with carts := db.carts.map (fun x =>
            if x.UserEmail == e then { x with Enabled := true, TotalPrice := .num 0 }
            else x) },
          { c0 with Enabled := true, TotalPrice := .num 0 })) ∧
    (∀ cart, db.carts.find? (fun c => c.UserEmail == e && c.Enabled) = some cart →
      cart.TotalPrice.isPos = true →
      getCartDetailsByCartId db cart.IdCart = [] →
      createCart db e none = .ok
        (setCartTotal db cart.IdCart (.num 0), { cart with TotalPrice := .num 0 })) ∧
    ((∀ c ∈ db.carts, ∃ q, c.TotalPrice = StoredNum.num q ∧ 0 ≤ q) →
      ∀ db' c, createCart db e none = .ok (db', c) →
        getCartDetailsByCartId db' c.IdCart = [] →
        c.TotalPrice = .num 0) := by
  obtain ⟨u, hu2⟩ := Option.isSome_iff_exists.mp hu
  have hget0 := getActiveCart_wf db e hne hwf.1 hwf.2.2
  rw [hnorm] at hget0
  refine ⟨?_, ?_, ?_⟩
  · intro c0 hc0 hdis
    have hc0mem := List.mem_of_find?_eq_some hc0
    have hc0e : c0.UserEmail = e := by
      have hs := List.find?_some hc0
      simpa using hs
    have hnone : db.carts.find? (fun c => c.UserEmail == e && c.Enabled) = none := by
      rw [List.find?_eq_none]
      intro a ha hpa
      have hps : a.UserEmail = e ∧ a.Enabled = true := by simpa using hpa
      have hac0 : a = c0 :=
        mem_unique_of_pairwise_key db.carts hwf.2.1 ha hc0mem (hps.1.trans hc0e.symm)
      rw [hac0] at hps
      rw [hps.2] at hdis
      exact Bool.noConfusion hdis
    rw [hnone] at hget0
    simp only [createCart, hnorm, hu2, hget0, hc0]
  · intro cart hf hpos hdet
    rw [hf] at hget0
    simp only [createCart, hnorm, hu2, hget0]
    rw [if_pos hpos, if_pos (by rw [hdet]; rfl)]
  · intro htot db' c hrun hempty
    cases hf : db.carts.find? (fun x => x.UserEmail == e && x.Enabled) with
    | some cart =>
      rw [hf] at hget0
      simp only [createCart, hnorm, hu2, hget0] at hrun
      by_cases hpos : cart.TotalPrice.isPos = true
      · by_cases hdet : ((getCartDetailsByCartId db cart.IdCart).isEmpty) = true
        · rw [if_pos hpos, if_pos hdet] at hrun
          have h := Except.ok.inj hrun
          have hc : ({ cart with TotalPrice := StoredNum.num 0 } : CartRow) = c :=
            congrArg Prod.snd h
          rw [← hc]
        · rw [if_pos hpos, if_neg hdet] at hrun
          have h := Except.ok.inj hrun
          have hdb : db = db' := congrArg Prod.fst h
          have hc : cart = c := congrArg Prod.snd h
          rw [← hdb, ← hc] at hempty
          rw [hempty] at hdet
          exact absurd rfl hdet
      · rw [if_neg hpos] at hrun
        have h := Except.ok.inj hrun
        have hc : cart = c := congrArg Prod.snd h
        obtain ⟨q, hq, hq0⟩ := htot cart (List.mem_of_find?_eq_some hf)
        have hnotpos : ¬ (0 < q) := by
          intro hlt
          apply hpos
          rw [hq]
          simpa [StoredNum.isPos] using hlt
        have hq00 : q = 0 := le_antisymm (not_lt.mp hnotpos) hq0
        rw [← hc, hq, hq00]
    | none =>
      rw [hf] at hget0
      simp only [createCart, hnorm, hu2, hget0] at hrun
      cases hall : db.carts.find? (fun x => x.UserEmail == e) with
      | some c0 =>
        simp only [hall] at hrun
        have h := Except.ok.inj hrun
        have hc : ({ c0 with Enabled := true, TotalPrice := StoredNum.num 0 } : CartRow) = c :=
          congrArg Prod.snd h
        rw [← hc]
      | none =>
        simp only [hall] at hrun
        have h := Except.ok.inj hrun
        have hc : ({ IdCart := freshCartId db, UserEmail := e,
                     TotalPrice := StoredNum.num 0, Enabled := true } : CartRow) = c :=
          congrArg Prod.snd h
        rw [← hc]

/-- Items-less active cart with the negative total used by the claim C8
counterexample. -/
def cartNegC8 : CartRow :=
  { IdCart := 1, UserEmail := "a@b.c", TotalPrice := .num (-5), Enabled := true }

/-- The same cart before updateCartTotalPrice drove its total negative. -/
def cartZeroC8 : CartRow :=
  { IdCart := 1, UserEmail := "a@b.c", TotalPrice := .num 0, Enabled := true }

def dbNegC8 : DB :=
  { users := [userC1], carts := [cartNegC8], cartDetails := [], records := [], orders := [] }

def dbZeroC8 : DB :=
  { users := [userC1], carts := [cartZeroC8], cartDetails := [], records := [], orders := [] }

/-- C8 counterexample: adding -5 to an items-less active cart with total 0
stores -5.00 (a state the snapshot's own updateCartTotalPrice produces), and
createCart then returns that cart unchanged — no items, yet TotalPrice is not
0, because parseFloat(-5) > 0 is false and the reset branch is skipped. -/
theorem claim_C8_counterexample :
    updateCartTotalPrice dbZeroC8 1 (.num (-5)) = .ok dbNegC8 ∧
    createCart dbNegC8 "a@b.c" none = .ok (dbNegC8, cartNegC8) ∧
    getCartDetailsByCartId dbNegC8 cartNegC8.IdCart = [] ∧
    cartNegC8.TotalPrice ≠ StoredNum.num 0 := by
  refine ⟨?_, by rfl, rfl, by decide⟩
  have hfix : toFixed2 ((0 : ℚ) + (-5 : ℚ)) = -5 := by
    norm_num [toFixed2]
  have h1 : getCartById dbZeroC8 1 = some cartZeroC8 := by rfl
  simp only [updateCartTotalPrice, h1]
  rw [show cartZeroC8.TotalPrice.asNumber + (StoredNum.num (-5)).asNumber =
    (0 : ℚ) + (-5 : ℚ) from rfl]
  rw [hfix]
  rfl

/-- Disabled cart used by the claim C8 witness. -/
def cartC8 : CartRow :=
  { IdCart := 3, UserEmail := "a@b.c", TotalPrice := .num 7, Enabled := false }

/-- Concrete database used by the claim C8 witness. -/
def dbC8 : DB :=
  { users := [userC1], carts := [cartC8], cartDetails := [], records := [], orders := [] }

/-- Witness for claim C8: createCart on a user whose only cart is disabled
re-enables it and resets the stored total 7 to 0. -/
theorem claim_C8_createCart_total_reset_witness :
    createCart dbC8 "a@b.c" none = .ok
      ({ dbC8 with carts := dbC8.carts.map (fun x =>
          if x.UserEmail == "a@b.c" then { x with Enabled := true, TotalPrice := .num 0 }
          else x) },
        { cartC8 with Enabled := true, TotalPrice := .num 0 }) :=
  (claim_C8_createCart_total_reset dbC8 "a@b.c" (by decide) (by decide) (by decide)
    (by decide)).1 cartC8 (by decide) (by decide)

end ECommerce
